import Mathlib

/-!
Verification of the project-persistence pipeline and presentation state
machine of the AI Shorts Generator single-page application.

The definitions below are a shallow embedding of `src/App.tsx` (together
with the record types of `src/types.ts`).  External collaborators — the
generation service, the audio codec bridge (`utils/audioUtils`) and the
durable project store (`services/googleDriveService`) — are not part of
the source tree; following the specification they are treated as opaque
operations whose outcomes are passed in as `Except` parameters, and the
durable store's contents are modelled from the specification (§4.2) as a
list of records with upsert/delete keyed by `id`.
-/

/-- One visual/narrative beat, from `src/types.ts` (`Scene`). -/
structure Scene where
  sceneDescription : String
  searchQuery : String
  duration : Int
  imageUrl : String
deriving DecidableEq, Repr

/-- The unit of persistence, from `src/types.ts` (`SavedProject`). -/
structure SavedProject where
  id : Nat
  topic : String
  scenes : List Scene
  audioData : String
  title : String
  hashtags : String
deriving DecidableEq, Repr

/-- A scene as returned by the scene-analysis stage, before an image URL is
merged in (`analyzeScriptForScenes` output shape). -/
structure SceneData where
  sceneDescription : String
  searchQuery : String
  duration : Int
deriving DecidableEq, Repr

/-- The presentation states of `App.tsx` (`type AppState`). -/
inductive AppState where
  | idle
  | loading
  | preview
  | error
deriving DecidableEq, Repr

/-- The whole mutable state of the `App` component (the `useState` cells of
`App.tsx`), together with the durable store's contents.  The store itself is
external; its contents are modelled from the spec (§4.2) as a list of
records keyed by `id`. -/
structure AppModel where
  appState : AppState
  loadingMessage : String
  errorMessage : String
  scenes : List Scene
  audioUrl : String
  currentTopic : String
  title : String
  hashtags : String
  projects : List SavedProject
  dbReady : Bool
  store : List SavedProject
deriving DecidableEq, Repr

/-- The shape of a parsed import file: `JSON.parse(text) as Partial<SavedProject>`
in `handleImportProject`.  Every field may be absent. -/
structure ImportedProject where
  id : Option Nat
  topic : Option String
  scenes : Option (List Scene)
  audioData : Option String
  title : Option String
  hashtags : Option String
deriving DecidableEq, Repr

/-- JavaScript `x || ''` on an optional string field: an absent field and the
empty string are both falsy and default to `''`. -/
def jsOrEmpty : Option String → String
  | none => ""
  | some t => if t = "" then "" else t

/-- Fresh project id: `Date.now() + Math.floor(Math.random() * 1000)`
(used identically in `handleSaveProject` and `handleImportProject`).
`now` is the millisecond timestamp and `rand` the floored random offset
(so `rand < 1000` for outcomes of `Math.floor(Math.random() * 1000)`). -/
def mkProjectId (now rand : Nat) : Nat := now + rand

/-- Modelled from the spec: the durable store's `put(project)` of
`services/googleDriveService` (not under `src/`), per §4.2 "upsert by `id`;
replaces wholesale if present". -/
def storePut (store : List SavedProject) (p : SavedProject) : List SavedProject :=
  if store.any (fun q => q.id == p.id) then
    store.map (fun q => if q.id == p.id then p else q)
  else
    store ++ [p]

/-- Modelled from the spec: the durable store's `delete(id)` of
`services/googleDriveService` (not under `src/`), per §4.2 "removes by `id`;
no-op (not an error) if absent". -/
def storeDelete (store : List SavedProject) (id : Nat) : List SavedProject :=
  store.filter (fun q => q.id != id)

/-- The scene-marker token of the Tamil script format. -/
def sceneMarkerToken : String := "காட்சி:"

/-- The voiceover cleaning of `handleGenerateVideo` (`App.tsx` lines 74–77):
`script.split('\n').filter(line => !line.trim().startsWith('காட்சி:')).join(' ')`. -/
def cleanedScriptForVoiceover (script : String) : String :=
  String.intercalate " "
    ((script.splitOn "\n").filter (fun line => !(line.trim.startsWith "காட்சி:")))

/-- The voiceover text as the specification words it: split the script into
lines, remove every line whose trimmed content begins with the scene-marker
token, join the remaining lines with single spaces. -/
def specVoiceoverText (script : String) : String :=
  String.intercalate " "
    ((script.splitOn "\n").filter (fun line => !(line.trim.startsWith sceneMarkerToken)))

/-- `handleRestart` of `App.tsx`: back to `idle`, clearing scenes, audio,
error message, topic, title and hashtags. -/
def handleRestart (s : AppModel) : AppModel :=
  { s with appState := .idle, scenes := [], audioUrl := "", errorMessage := "",
           currentTopic := "", title := "", hashtags := "" }

/-- `handleSaveProject` of `App.tsx`.  `now`/`rand` are the `Date.now()` and
floored-random outcomes, `enc` the outcome of the external
`blobUrlToBase64(audioUrl)` call, `putRes` the outcome of the external
`saveProjectToDB(newProject)` call. -/
def handleSaveProject (s : AppModel) (now rand : Nat)
    (enc : Except String String) (putRes : Except String Unit) : AppModel :=
  if s.scenes = [] ∨ s.audioUrl = "" ∨ s.currentTopic = "" ∨ s.dbReady = false then
    s
  else
    match enc with
    | .error _ =>
        { s with errorMessage := "Could not save the project. Please try again.",
                 appState := .error }
    | .ok audioData =>
        let newProject : SavedProject :=
          { id := mkProjectId now rand, topic := s.currentTopic, scenes := s.scenes,
            audioData := audioData, title := s.title, hashtags := s.hashtags }
        match putRes with
        | .ok _ =>
            { s with store := storePut s.store newProject,
                     projects := s.projects ++ [newProject] }
        | .error _ =>
            { s with errorMessage := "Could not save the project. Please try again.",
                     appState := .error }

/-- `handleLoadProject` of `App.tsx`.  `dec` is the outcome of the external
`base64ToBlobUrl(project.audioData)` call. -/
def handleLoadProject (s : AppModel) (p : SavedProject)
    (dec : Except String String) : AppModel :=
  match dec with
  | .ok loadedAudioUrl =>
      { s with scenes := p.scenes, audioUrl := loadedAudioUrl,
               currentTopic := p.topic,
               title := if p.title = "" then "" else p.title,
               hashtags := if p.hashtags = "" then "" else p.hashtags,
               appState := .preview }
  | .error _ =>
      { s with errorMessage := "Could not load project. The data might be corrupted.",
               appState := .error }

/-- `handleDeleteProject` of `App.tsx`.  `delRes` is the outcome of the
external `deleteProjectFromDB(id)` call; on success the store's own effect is
the spec-modelled `storeDelete`. -/
def handleDeleteProject (s : AppModel) (id : Nat)
    (delRes : Except String Unit) : AppModel :=
  if s.dbReady = false then
    s
  else
    match delRes with
    | .ok _ =>
        { s with store := storeDelete s.store id,
                 projects := s.projects.filter (fun p => p.id != id) }
    | .error _ =>
        { s with errorMessage := "Could not delete the project. Please try again.",
                 appState := .error }

/-- The serialization leg of `handleExportProject`:
`JSON.stringify(project, null, 2)` of a fully populated record, later
`JSON.parse`d by `handleImportProject`, yields structurally the same fields,
each present. -/
def exportProject (p : SavedProject) : ImportedProject :=
  { id := some p.id, topic := some p.topic, scenes := some p.scenes,
    audioData := some p.audioData, title := some p.title, hashtags := some p.hashtags }

/-- The state effect of `handleExportProject` of `App.tsx`: the file download
is external; app state is untouched unless serialization throws, in which
case the catch sets the error state. -/
def handleExportProject (s : AppModel) (ok : Bool) : AppModel :=
  if ok then s
  else
    { s with errorMessage := "Could not export the project. An unexpected error occurred.",
             appState := .error }

/-- The validation-failure message of `handleImportProject`
(`"Invalid project file. It's missing topic, scenes, or audio data."`). -/
def importMissingMsg : String :=
  "Invalid project file. It\x27s missing topic, scenes, or audio data."

/-- The catch of `handleImportProject`: prefix the thrown message and enter
the error state. -/
def importFailState (s : AppModel) (msg : String) : AppModel :=
  { s with errorMessage := "Could not import project: " ++ msg, appState := .error }

/-- `handleImportProject` of `App.tsx` on a successfully read file.  The
JavaScript guard is `!importedProject.topic || !importedProject.scenes ||
!importedProject.audioData`: an absent field is falsy, an empty string is
falsy, but an empty scenes array is truthy.  `putRes` is the outcome of the
external `saveProjectToDB(newProject)` call. -/
def handleImportProject (s : AppModel) (input : ImportedProject)
    (now rand : Nat) (putRes : Except String Unit) : AppModel :=
  match input.topic, input.scenes, input.audioData with
  | some topic, some scenes, some audioData =>
      if topic = "" ∨ audioData = "" then
        importFailState s importMissingMsg
      else
        let newProject : SavedProject :=
          { id := mkProjectId now rand, topic := topic, scenes := scenes,
            audioData := audioData, title := jsOrEmpty input.title,
            hashtags := jsOrEmpty input.hashtags }
        match putRes with
        | .ok _ =>
            { s with store := storePut s.store newProject,
                     projects := s.projects ++ [newProject] }
        | .error msg => importFailState s msg
  | _, _, _ => importFailState s importMissingMsg

/-- The `initialize` effect of the mount-time `useEffect` of `App.tsx`:
`initDB()` then `getProjectsFromDB()`; any failure sets the error state.
On success the loaded list is the store's contents (spec §4.2 `list()`). -/
def handleInitLoad (s : AppModel) (dbOk listOk : Bool) : AppModel :=
  if dbOk then
    let s1 := { s with dbReady := true }
    if listOk then
      { s1 with projects := s1.store }
    else
      { s1 with errorMessage := "Could not load saved projects. Please refresh the page.",
                appState := .error }
  else
    { s with errorMessage := "Could not load saved projects. Please refresh the page.",
             appState := .error }

/-- The outcomes of the external generation-service and audio-codec calls
consumed by one run of `handleGenerateVideo`.  `processAudio` bundles the
`decode` / `decodeAudioData` / `audioBufferToWaveBlobUrl` leg of
`utils/audioUtils` (external to `src/`), mapping the voiceover payload to a
playable URL or a failure. -/
structure GenOracles where
  script : String → Except String String
  titleAndHashtags : String → String → Except String (String × String)
  sceneAnalysis : String → Except String (List SceneData)
  imageForScene : String → Except String String
  voiceover : String → Except String String
  processAudio : String → Except String String

/-- The catch of `handleGenerateVideo`:
`setErrorMessage(error.message || 'An unknown error occurred.')` then the
error state. -/
def genFailState (s : AppModel) (msg : String) : AppModel :=
  { s with errorMessage := if msg = "" then "An unknown error occurred." else msg,
           appState := .error }

/-- `Promise.all` over `sceneData.map(scene => generateImageForScene(scene.sceneDescription))`:
all images or the first failure. -/
def allImages (f : String → Except String String) :
    List SceneData → Except String (List String)
  | [] => .ok []
  | sc :: rest =>
      match f sc.sceneDescription with
      | .error e => .error e
      | .ok u =>
          match allImages f rest with
          | .error e => .error e
          | .ok us => .ok (u :: us)

/-- The synchronous prefix of `handleGenerateVideo`: enter `loading`, record
the topic, clear title and hashtags. -/
def handleGenerateVideoStart (s : AppModel) (topic : String) : AppModel :=
  { s with appState := .loading, currentTopic := topic, title := "", hashtags := "" }

/-- The `try` block of `handleGenerateVideo` of `App.tsx`, run from the
`loading` state: script → title/hashtags → scene analysis → images
(all-or-nothing) → merged scenes → cleaned voiceover text → raw audio →
playable URL → `preview`; the first failing stage aborts into the error
state with its message. -/
def handleGenerateVideoRest (s : AppModel) (o : GenOracles) : AppModel :=
  let s0 := { s with loadingMessage := "Generating script from your topic..." }
  match o.script s0.currentTopic with
  | .error e => genFailState s0 e
  | .ok script =>
  let s1 := { s0 with loadingMessage := "Creating title & hashtags..." }
  match o.titleAndHashtags s1.currentTopic script with
  | .error e => genFailState s1 e
  | .ok th =>
  let s2 := { s1 with title := th.1, hashtags := th.2,
                      loadingMessage := "Analyzing your script..." }
  match o.sceneAnalysis script with
  | .error e => genFailState s2 e
  | .ok sceneData =>
  let s3 := { s2 with loadingMessage := "Generating visuals for your scenes..." }
  match allImages o.imageForScene sceneData with
  | .error e => genFailState s3 e
  | .ok urls =>
  let finalScenes := (sceneData.zip urls).map (fun pr =>
    { sceneDescription := pr.1.sceneDescription, searchQuery := pr.1.searchQuery,
      duration := pr.1.duration, imageUrl := pr.2 : Scene })
  let s4 := { s3 with scenes := finalScenes,
                      loadingMessage := "Generating Tamil voiceover..." }
  match o.voiceover (cleanedScriptForVoiceover script) with
  | .error e => genFailState s4 e
  | .ok audioData =>
  let s5 := { s4 with loadingMessage := "Preparing your video..." }
  match o.processAudio audioData with
  | .error e => genFailState s5 e
  | .ok url => { s5 with audioUrl := url, appState := .preview }

/-- The whole `handleGenerateVideo` of `App.tsx`. -/
def handleGenerateVideo (s : AppModel) (topic : String) (o : GenOracles) : AppModel :=
  handleGenerateVideoRest (handleGenerateVideoStart s topic) o

/-- The message of the first failing stage of a generation run, `none` when
every stage succeeds; mirrors the stage order of `handleGenerateVideoRest`. -/
def firstStageError (topic : String) (o : GenOracles) : Option String :=
  match o.script topic with
  | .error e => some e
  | .ok script =>
  match o.titleAndHashtags topic script with
  | .error e => some e
  | .ok _ =>
  match o.sceneAnalysis script with
  | .error e => some e
  | .ok sceneData =>
  match allImages o.imageForScene sceneData with
  | .error e => some e
  | .ok _ =>
  match o.voiceover (cleanedScriptForVoiceover script) with
  | .error e => some e
  | .ok audioData =>
  match o.processAudio audioData with
  | .error e => some e
  | .ok _ => none

/-- One user-or-completion event of the presentation shell, carrying the
outcomes of the external calls it consumes.  `genStart`/`genFinish` split
`handleGenerateVideo` at its `setAppState('loading')` so the intermediate
`loading` state is observable. -/
inductive Event where
  | genStart (topic : String)
  | genFinish (o : GenOracles)
  | restart
  | save (now rand : Nat) (enc : Except String String) (putRes : Except String Unit)
  | load (p : SavedProject) (dec : Except String String)
  | deleteProj (id : Nat) (delRes : Except String Unit)
  | importProj (input : ImportedProject) (now rand : Nat) (putRes : Except String Unit)
  | exportProj (ok : Bool)
  | initLoad (dbOk listOk : Bool)

/-- The transition function of the presentation shell: each event applies
its `App.tsx` handler. -/
def step (s : AppModel) (e : Event) : AppModel :=
  match e with
  | .genStart topic => handleGenerateVideoStart s topic
  | .genFinish o => handleGenerateVideoRest s o
  | .restart => handleRestart s
  | .save now rand enc putRes => handleSaveProject s now rand enc putRes
  | .load p dec => handleLoadProject s p dec
  | .deleteProj id delRes => handleDeleteProject s id delRes
  | .importProj input now rand putRes => handleImportProject s input now rand putRes
  | .exportProj ok => handleExportProject s ok
  | .initLoad dbOk listOk => handleInitLoad s dbOk listOk

/-- Which events the rendered view exposes in each presentation state, from
`renderContent` of `App.tsx`: the `idle` view (`ScriptInput`) wires generate,
load, delete, export and import (and hosts the mount-time initialization);
the `preview` view (`VideoPreview`) wires save and restart; the `error` view
wires restart; the `loading` view only awaits the in-flight generation. -/
def enabledB : AppState → Event → Bool
  | .idle, .genStart _ => true
  | .idle, .load _ _ => true
  | .idle, .deleteProj _ _ => true
  | .idle, .importProj _ _ _ _ => true
  | .idle, .exportProj _ => true
  | .idle, .initLoad _ _ => true
  | .loading, .genFinish _ => true
  | .preview, .save _ _ _ _ => true
  | .preview, .restart => true
  | .error, .restart => true
  | _, _ => false

/-- The transition edges the claim lists: `idle → loading`,
`loading → preview`, `loading → error`, `idle → error`, `error → idle`. -/
def claimedEdgeB : AppState → AppState → Bool
  | .idle, .loading => true
  | .loading, .preview => true
  | .loading, .error => true
  | .idle, .error => true
  | .error, .idle => true
  | _, _ => false

/-- The transition edges the code actually takes: the claimed ones plus
`idle → preview` (loading a saved project), `preview → error` (save
failure), and `preview → idle` (restart from the preview view). -/
def amendedEdgeB : AppState → AppState → Bool
  | .idle, .loading => true
  | .loading, .preview => true
  | .loading, .error => true
  | .idle, .error => true
  | .error, .idle => true
  | .idle, .preview => true
  | .preview, .error => true
  | .preview, .idle => true
  | _, _ => false

/-- A sample scene. -/
def scA : Scene :=
  { sceneDescription := "a robot in a kitchen", searchQuery := "robot kitchen",
    duration := 3, imageUrl := "img://a" }

/-- A sample ready idle state: database initialized, nothing generated yet. -/
def sIdle : AppModel :=
  { appState := .idle, loadingMessage := "", errorMessage := "", scenes := [],
    audioUrl := "", currentTopic := "", title := "", hashtags := "",
    projects := [], dbReady := true, store := [] }

/-- A sample preview state with a generated result ready to be saved. -/
def sPrev : AppModel :=
  { appState := .preview, loadingMessage := "", errorMessage := "",
    scenes := [scA], audioUrl := "blob:a", currentTopic := "robot",
    title := "Robot Cooks", hashtags := "#robot", projects := [],
    dbReady := true, store := [] }

/-- JavaScript `x || ''` is the identity on a present string field. -/
theorem jsOrEmpty_some (t : String) : jsOrEmpty (some t) = t := by
  show (if t = "" then "" else t) = t
  split
  · next h => exact h.symm
  · rfl

/-- A save whose preconditions hold and whose external calls succeed appends
exactly one fresh record to the store and to the in-memory list, and touches
nothing else. -/
theorem handleSaveProject_ok (s : AppModel) (now rand : Nat) (a : String)
    (h : ¬ (s.scenes = [] ∨ s.audioUrl = "" ∨ s.currentTopic = "" ∨ s.dbReady = false)) :
    handleSaveProject s now rand (Except.ok a) (Except.ok ()) =
      { s with
        store := storePut s.store
          { id := mkProjectId now rand, topic := s.currentTopic, scenes := s.scenes,
            audioData := a, title := s.title, hashtags := s.hashtags },
        projects := s.projects ++
          [{ id := mkProjectId now rand, topic := s.currentTopic, scenes := s.scenes,
             audioData := a, title := s.title, hashtags := s.hashtags }] } := by
  unfold handleSaveProject
  rw [if_neg h]

/-- An import whose required fields are present and non-falsy and whose store
put succeeds appends exactly one fresh record, defaulting title/hashtags. -/
theorem handleImportProject_ok (s : AppModel) (input : ImportedProject)
    (now rand : Nat) (t a : String) (sc : List Scene)
    (htop : input.topic = some t) (hsc : input.scenes = some sc)
    (haud : input.audioData = some a) (ht : t ≠ "") (ha : a ≠ "") :
    handleImportProject s input now rand (Except.ok ()) =
      { s with
        store := storePut s.store
          { id := mkProjectId now rand, topic := t, scenes := sc, audioData := a,
            title := jsOrEmpty input.title, hashtags := jsOrEmpty input.hashtags },
        projects := s.projects ++
          [{ id := mkProjectId now rand, topic := t, scenes := sc, audioData := a,
             title := jsOrEmpty input.title, hashtags := jsOrEmpty input.hashtags }] } := by
  unfold handleImportProject
  rw [htop, hsc, haud]
  simp only []
  rw [if_neg (by simp [ht, ha])]

/-- C6: for every script string, the voiceover text equals the result of
splitting the script into lines, removing every line whose trimmed content
begins with the scene-marker token, and joining the remaining lines with
single spaces. -/
theorem c6_voiceover_cleaning_matches_spec (script : String) :
    cleanedScriptForVoiceover script = specVoiceoverText script := rfl

/-- C9: whenever the scene list is empty, the audio handle absent, the topic
empty, or the store not ready, `handleSaveProject` is a silent no-op: the
whole application state (durable store and in-memory list included) is
returned unchanged and no error state is entered. -/
theorem c9_save_missing_precondition_noop (s : AppModel) (now rand : Nat)
    (enc : Except String String) (putRes : Except String Unit)
    (h : s.scenes = [] ∨ s.audioUrl = "" ∨ s.currentTopic = "" ∨ s.dbReady = false) :
    handleSaveProject s now rand enc putRes = s := by
  unfold handleSaveProject
  rw [if_pos h]

theorem c9_save_missing_precondition_noop_witness :
    handleSaveProject sIdle 1000 5 (Except.ok "QUJD") (Except.ok ()) = sIdle :=
  c9_save_missing_precondition_noop sIdle 1000 5 (Except.ok "QUJD") (Except.ok ())
    (Or.inl rfl)

/-- C8: delete is durable-first — with the store not ready the whole
operation is a silent no-op; when the durable deletion fails the in-memory
list (and the store) are untouched; the in-memory entry is removed exactly
when the durable deletion completed successfully. -/
theorem c8_delete_durable_first (s : AppModel) (id : Nat)
    (delRes : Except String Unit) :
    (s.dbReady = false → handleDeleteProject s id delRes = s) ∧
    (∀ e, delRes = Except.error e →
      (handleDeleteProject s id delRes).projects = s.projects ∧
      (handleDeleteProject s id delRes).store = s.store) ∧
    (s.dbReady = true → delRes = Except.ok () →
      handleDeleteProject s id delRes =
        { s with store := storeDelete s.store id,
                 projects := s.projects.filter (fun p => p.id != id) }) := by
  refine ⟨?_, ?_, ?_⟩
  · intro h
    unfold handleDeleteProject
    rw [if_pos h]
  · intro e he
    subst he
    unfold handleDeleteProject
    by_cases h : s.dbReady = false
    · rw [if_pos h]
      exact ⟨rfl, rfl⟩
    · rw [if_neg h]
      exact ⟨rfl, rfl⟩
  · intro h hd
    subst hd
    unfold handleDeleteProject
    rw [if_neg (by simp [h])]

theorem c8_delete_durable_first_witness :
    (handleDeleteProject sPrev 5 (Except.error "boom")).projects = sPrev.projects :=
  ((c8_delete_durable_first sPrev 5 (Except.error "boom")).2.1 "boom" rfl).1

/-- C1 counterexample: two saves in the same millisecond (`Date.now() = 1000`)
whose random offsets are both `0` produce two records with the same id — the
in-memory list then holds the id `1000` twice. -/
theorem c1_same_millisecond_equal_offset_collision :
    ((handleSaveProject
        (handleSaveProject sPrev 1000 0 (Except.ok "QUJD") (Except.ok ()))
        1000 0 (Except.ok "QUJD") (Except.ok ())).projects.map
      (fun p => p.id)) = [1000, 1000] ∧
    ¬ ((handleSaveProject
        (handleSaveProject sPrev 1000 0 (Except.ok "QUJD") (Except.ok ()))
        1000 0 (Except.ok "QUJD") (Except.ok ())).projects.map
      (fun p => p.id)).Nodup := by decide

/-- C1 as amended: two successive saves produce records with distinct ids
exactly when their timestamp-plus-offset sums differ — in particular, two
saves within the same millisecond produce distinct ids precisely when their
random offsets differ; with equal sums the ids collide, so uniqueness holds
only with high probability. -/
theorem c1_amended_distinct_sums_give_distinct_ids (s : AppModel)
    (now1 r1 now2 r2 : Nat) (a1 a2 : String)
    (hpre : ¬ (s.scenes = [] ∨ s.audioUrl = "" ∨ s.currentTopic = "" ∨ s.dbReady = false))
    (hr : now1 + r1 ≠ now2 + r2) :
    ∃ p1 p2 : SavedProject,
      (handleSaveProject
          (handleSaveProject s now1 r1 (Except.ok a1) (Except.ok ()))
          now2 r2 (Except.ok a2) (Except.ok ())).projects
        = s.projects ++ [p1, p2] ∧
      p1.id ≠ p2.id := by
  refine ⟨{ id := mkProjectId now1 r1, topic := s.currentTopic, scenes := s.scenes,
            audioData := a1, title := s.title, hashtags := s.hashtags },
          { id := mkProjectId now2 r2, topic := s.currentTopic, scenes := s.scenes,
            audioData := a2, title := s.title, hashtags := s.hashtags }, ?_, ?_⟩
  · rw [handleSaveProject_ok s now1 r1 a1 hpre]
    have h2 := handleSaveProject_ok
      { s with
        store := storePut s.store
          { id := mkProjectId now1 r1, topic := s.currentTopic, scenes := s.scenes,
            audioData := a1, title := s.title, hashtags := s.hashtags },
        projects := s.projects ++
          [{ id := mkProjectId now1 r1, topic := s.currentTopic, scenes := s.scenes,
             audioData := a1, title := s.title, hashtags := s.hashtags }] }
      now2 r2 a2 hpre
    rw [h2]
    simp
  · simp only [mkProjectId]
    omega

theorem c1_amended_distinct_sums_give_distinct_ids_witness :
    ∃ p1 p2 : SavedProject,
      (handleSaveProject
          (handleSaveProject sPrev 1000 0 (Except.ok "QUJD") (Except.ok ()))
          1000 1 (Except.ok "QUJD") (Except.ok ())).projects
        = sPrev.projects ++ [p1, p2] ∧
      p1.id ≠ p2.id :=
  c1_amended_distinct_sums_give_distinct_ids sPrev 1000 0 1000 1 "QUJD" "QUJD"
    (by decide) (by decide)

/-- A saved project whose topic is the empty string: the import guard treats
an empty topic like a missing one. -/
def pEmptyTopic : SavedProject :=
  { id := 42, topic := "", scenes := [scA], audioData := "QUJD",
    title := "T", hashtags := "#t" }

/-- A saved project with a non-empty topic and non-empty audio payload. -/
def pRobot : SavedProject :=
  { id := 42, topic := "robot", scenes := [scA], audioData := "QUJD",
    title := "Robot Cooks", hashtags := "#robot" }

/-- C2 counterexample: exporting and re-importing a `SavedProject` whose
topic is the empty string yields no record at all — the import fails its
validation guard and the in-memory list stays unchanged — so export∘import
is not field-preserving for every `SavedProject`. -/
theorem c2_export_import_empty_topic_fails :
    (handleImportProject sIdle (exportProject pEmptyTopic) 1000 5
        (Except.ok ())).projects = sIdle.projects ∧
    (handleImportProject sIdle (exportProject pEmptyTopic) 1000 5
        (Except.ok ())).appState = AppState.error := by decide

/-- C2 as amended: for every `SavedProject` whose topic and audio payload
are non-empty, export followed by import yields a record equal to the
original in topic, scenes, audioData, title and hashtags, with a freshly
assigned id. -/
theorem c2_amended_export_import_roundtrip (s : AppModel) (p : SavedProject)
    (now rand : Nat) (ht : p.topic ≠ "") (ha : p.audioData ≠ "") :
    ∃ q : SavedProject,
      handleImportProject s (exportProject p) now rand (Except.ok ()) =
        { s with store := storePut s.store q, projects := s.projects ++ [q] } ∧
      q.topic = p.topic ∧ q.scenes = p.scenes ∧ q.audioData = p.audioData ∧
      q.title = p.title ∧ q.hashtags = p.hashtags ∧ q.id = mkProjectId now rand := by
  refine ⟨{ id := mkProjectId now rand, topic := p.topic, scenes := p.scenes,
            audioData := p.audioData, title := p.title, hashtags := p.hashtags },
          ?_, rfl, rfl, rfl, rfl, rfl, rfl⟩
  have h := handleImportProject_ok s (exportProject p) now rand p.topic p.audioData
    p.scenes rfl rfl rfl ht ha
  rw [h]
  simp [exportProject, jsOrEmpty_some]

theorem c2_amended_export_import_roundtrip_witness :
    ∃ q : SavedProject,
      handleImportProject sIdle (exportProject pRobot) 1000 5 (Except.ok ()) =
        { sIdle with store := storePut sIdle.store q,
                     projects := sIdle.projects ++ [q] } ∧
      q.topic = pRobot.topic ∧ q.scenes = pRobot.scenes ∧
      q.audioData = pRobot.audioData ∧ q.title = pRobot.title ∧
      q.hashtags = pRobot.hashtags ∧ q.id = mkProjectId 1000 5 :=
  c2_amended_export_import_roundtrip sIdle pRobot 1000 5 (by decide) (by decide)

/-- JavaScript truthiness of an optional string field: absent or empty is
falsy. -/
def jsTruthyOptStr : Option String → Bool
  | none => false
  | some t => t != ""

/-- The condition under which the import guard
`!importedProject.topic || !importedProject.scenes || !importedProject.audioData`
lets a file through: topic present and non-empty, scenes present (an empty
array is truthy), audioData present and non-empty. -/
def importInputValid (i : ImportedProject) : Bool :=
  jsTruthyOptStr i.topic && i.scenes.isSome && jsTruthyOptStr i.audioData

/-- An import input in which all three required fields are present but the
topic is the empty string. -/
def iEmptyTopicPresent : ImportedProject :=
  { id := some 7, topic := some "", scenes := some [scA], audioData := some "QUJD",
    title := some "T", hashtags := some "#t" }

/-- An import input missing `audioData`. -/
def iNoAudio : ImportedProject :=
  { id := none, topic := some "robot", scenes := some [scA], audioData := none,
    title := none, hashtags := none }

/-- C5 counterexample: an input in which topic, scenes and audioData are all
present (none of the three is missing) is nevertheless rejected — the guard
tests truthiness, so a present-but-empty topic fails the import. -/
theorem c5_present_but_empty_topic_rejected :
    iEmptyTopicPresent.topic ≠ none ∧ iEmptyTopicPresent.scenes ≠ none ∧
    iEmptyTopicPresent.audioData ≠ none ∧
    (handleImportProject sIdle iEmptyTopicPresent 1000 5 (Except.ok ())).appState
        = AppState.error ∧
    (handleImportProject sIdle iEmptyTopicPresent 1000 5 (Except.ok ())).projects
        = sIdle.projects ∧
    (handleImportProject sIdle iEmptyTopicPresent 1000 5 (Except.ok ())).store
        = sIdle.store := by decide

/-- C5 as amended: import fails with the validation error — leaving the
durable store and the in-memory list untouched — exactly when the topic is
missing or empty, the scenes field is missing, or the audioData is missing
or empty; when all three are present and the strings non-empty (and the
store put succeeds) it appends one record, defaulting missing title and
hashtags to empty strings. -/
theorem c5_amended_import_validation (s : AppModel) (input : ImportedProject)
    (now rand : Nat) (putRes : Except String Unit) :
    (importInputValid input = false →
      handleImportProject s input now rand putRes =
        importFailState s importMissingMsg) ∧
    (importInputValid input = true →
      ∃ q : SavedProject,
        handleImportProject s input now rand (Except.ok ()) =
          { s with store := storePut s.store q, projects := s.projects ++ [q] } ∧
        input.topic = some q.topic ∧ input.scenes = some q.scenes ∧
        input.audioData = some q.audioData ∧ q.title = jsOrEmpty input.title ∧
        q.hashtags = jsOrEmpty input.hashtags ∧ q.id = mkProjectId now rand) := by
  constructor
  · intro hbad
    cases htop : input.topic with
    | none =>
        unfold handleImportProject
        rw [htop]
    | some t =>
        cases hsc : input.scenes with
        | none =>
            unfold handleImportProject
            rw [htop, hsc]
        | some sc =>
            cases haud : input.audioData with
            | none =>
                unfold handleImportProject
                rw [htop, hsc, haud]
            | some a =>
                have hcond : t = "" ∨ a = "" := by
                  simp [importInputValid, jsTruthyOptStr, htop, hsc, haud] at hbad
                  tauto
                unfold handleImportProject
                rw [htop, hsc, haud]
                simp only []
                rw [if_pos hcond]
  · intro hgood
    cases htop : input.topic with
    | none => simp [importInputValid, jsTruthyOptStr, htop] at hgood
    | some t =>
        cases hsc : input.scenes with
        | none => simp [importInputValid, jsTruthyOptStr, htop, hsc] at hgood
        | some sc =>
            cases haud : input.audioData with
            | none => simp [importInputValid, jsTruthyOptStr, htop, hsc, haud] at hgood
            | some a =>
                have ht : t ≠ "" := by
                  simp [importInputValid, jsTruthyOptStr, htop, hsc, haud] at hgood
                  tauto
                have ha : a ≠ "" := by
                  simp [importInputValid, jsTruthyOptStr, htop, hsc, haud] at hgood
                  tauto
                exact ⟨{ id := mkProjectId now rand, topic := t, scenes := sc,
                         audioData := a, title := jsOrEmpty input.title,
                         hashtags := jsOrEmpty input.hashtags },
                       handleImportProject_ok s input now rand t a sc htop hsc haud ht ha,
                       rfl, rfl, rfl, rfl, rfl, rfl⟩

theorem c5_amended_import_validation_witness :
    handleImportProject sIdle iNoAudio 1000 5 (Except.ok ()) =
      importFailState sIdle importMissingMsg :=
  (c5_amended_import_validation sIdle iNoAudio 1000 5 (Except.ok ())).1 (by decide)

/-- C10: a successful save appends exactly one new record at the end of the
in-memory list, and a successful import does the same; in both cases every
other piece of application state — presentation state, scenes, audio
reference, topic, title, hashtags (and messages and readiness) — is exactly
what it was, as the full-state equality shows. -/
theorem c10_save_import_append_frame (s : AppModel) (now rand : Nat)
    (a : String) (input : ImportedProject) :
    (¬ (s.scenes = [] ∨ s.audioUrl = "" ∨ s.currentTopic = "" ∨ s.dbReady = false) →
      handleSaveProject s now rand (Except.ok a) (Except.ok ()) =
        { s with
          store := storePut s.store
            { id := mkProjectId now rand, topic := s.currentTopic, scenes := s.scenes,
              audioData := a, title := s.title, hashtags := s.hashtags },
          projects := s.projects ++
            [{ id := mkProjectId now rand, topic := s.currentTopic, scenes := s.scenes,
               audioData := a, title := s.title, hashtags := s.hashtags }] }) ∧
    (∀ t aud sc, input.topic = some t → input.scenes = some sc →
      input.audioData = some aud → t ≠ "" → aud ≠ "" →
      handleImportProject s input now rand (Except.ok ()) =
        { s with
          store := storePut s.store
            { id := mkProjectId now rand, topic := t, scenes := sc, audioData := aud,
              title := jsOrEmpty input.title, hashtags := jsOrEmpty input.hashtags },
          projects := s.projects ++
            [{ id := mkProjectId now rand, topic := t, scenes := sc, audioData := aud,
               title := jsOrEmpty input.title, hashtags := jsOrEmpty input.hashtags }] }) := by
  constructor
  · intro h
    exact handleSaveProject_ok s now rand a h
  · intro t aud sc htop hsc haud ht ha
    exact handleImportProject_ok s input now rand t aud sc htop hsc haud ht ha

theorem c10_save_import_append_frame_witness :
    handleSaveProject sPrev 1000 5 (Except.ok "QUJD") (Except.ok ()) =
      { sPrev with
        store := storePut sPrev.store
          { id := mkProjectId 1000 5, topic := sPrev.currentTopic,
            scenes := sPrev.scenes, audioData := "QUJD", title := sPrev.title,
            hashtags := sPrev.hashtags },
        projects := sPrev.projects ++
          [{ id := mkProjectId 1000 5, topic := sPrev.currentTopic,
             scenes := sPrev.scenes, audioData := "QUJD", title := sPrev.title,
             hashtags := sPrev.hashtags }] } :=
  (c10_save_import_append_frame sPrev 1000 5 "QUJD" iNoAudio).1 (by decide)

/-- The import payload exhibiting the preview invariant violation: all three
required fields are present and `scenes` is the empty array, which is truthy
in JavaScript and so passes the validation guard. -/
def iEmptyScenes : ImportedProject :=
  { id := none, topic := some "robot", scenes := some [], audioData := some "QUJD",
    title := none, hashtags := none }

/-- C3: the code violates the preview invariant.  Importing a file whose
`scenes` is the empty array is accepted (one record with no scenes joins the
list), and loading that accepted project puts the application in the
`preview` state with an empty scenes sequence. -/
theorem c3_preview_reachable_with_empty_scenes :
    (handleImportProject sIdle iEmptyScenes 1000 5 (Except.ok ())).projects =
      [{ id := 1005, topic := "robot", scenes := [], audioData := "QUJD",
         title := "", hashtags := "" }] ∧
    (handleLoadProject
        (handleImportProject sIdle iEmptyScenes 1000 5 (Except.ok ()))
        { id := 1005, topic := "robot", scenes := [], audioData := "QUJD",
          title := "", hashtags := "" }
        (Except.ok "blob:r")).appState = AppState.preview ∧
    (handleLoadProject
        (handleImportProject sIdle iEmptyScenes 1000 5 (Except.ok ()))
        { id := 1005, topic := "robot", scenes := [], audioData := "QUJD",
          title := "", hashtags := "" }
        (Except.ok "blob:r")).scenes = [] := by decide

/-- A generation run ends in the error state or in the preview state. -/
theorem handleGenerateVideoRest_appState (s : AppModel) (o : GenOracles) :
    (handleGenerateVideoRest s o).appState = AppState.error ∨
    (handleGenerateVideoRest s o).appState = AppState.preview := by
  simp only [handleGenerateVideoRest]
  split
  · left; rfl
  · split
    · left; rfl
    · split
      · left; rfl
      · split
        · left; rfl
        · split
          · left; rfl
          · split
            · left; rfl
            · right; rfl

/-- A save leaves the presentation state alone or enters the error state. -/
theorem handleSaveProject_appState (s : AppModel) (now rand : Nat)
    (enc : Except String String) (putRes : Except String Unit) :
    (handleSaveProject s now rand enc putRes).appState = s.appState ∨
    (handleSaveProject s now rand enc putRes).appState = AppState.error := by
  unfold handleSaveProject
  split
  · left; rfl
  · split
    · right; rfl
    · split
      · left; rfl
      · right; rfl

/-- A load ends in the preview state or in the error state. -/
theorem handleLoadProject_appState (s : AppModel) (p : SavedProject)
    (dec : Except String String) :
    (handleLoadProject s p dec).appState = AppState.preview ∨
    (handleLoadProject s p dec).appState = AppState.error := by
  unfold handleLoadProject
  split
  · left; rfl
  · right; rfl

/-- A delete leaves the presentation state alone or enters the error state. -/
theorem handleDeleteProject_appState (s : AppModel) (id : Nat)
    (delRes : Except String Unit) :
    (handleDeleteProject s id delRes).appState = s.appState ∨
    (handleDeleteProject s id delRes).appState = AppState.error := by
  unfold handleDeleteProject
  split
  · left; rfl
  · split
    · left; rfl
    · right; rfl

/-- An import leaves the presentation state alone or enters the error state. -/
theorem handleImportProject_appState (s : AppModel) (input : ImportedProject)
    (now rand : Nat) (putRes : Except String Unit) :
    (handleImportProject s input now rand putRes).appState = s.appState ∨
    (handleImportProject s input now rand putRes).appState = AppState.error := by
  unfold handleImportProject
  split
  · split
    · right; rfl
    · split
      · left; rfl
      · right; rfl
  · right; rfl

/-- An export leaves the presentation state alone or enters the error state. -/
theorem handleExportProject_appState (s : AppModel) (ok : Bool) :
    (handleExportProject s ok).appState = s.appState ∨
    (handleExportProject s ok).appState = AppState.error := by
  unfold handleExportProject
  split
  · left; rfl
  · right; rfl

/-- Initialization leaves the presentation state alone or enters the error
state. -/
theorem handleInitLoad_appState (s : AppModel) (dbOk listOk : Bool) :
    (handleInitLoad s dbOk listOk).appState = s.appState ∨
    (handleInitLoad s dbOk listOk).appState = AppState.error := by
  unfold handleInitLoad
  split
  · split
    · left; rfl
    · right; rfl
  · right; rfl

/-- C4 counterexample: from the `preview` state the save action is enabled,
and a save whose durable put fails transitions `preview → error` — an edge
the claim's list does not contain. -/
theorem c4_preview_to_error_transition_exists :
    sPrev.appState = AppState.preview ∧
    enabledB sPrev.appState
      (Event.save 1000 5 (Except.ok "QUJD") (Except.error "quota")) = true ∧
    (step sPrev (Event.save 1000 5 (Except.ok "QUJD") (Except.error "quota"))).appState
      = AppState.error ∧
    claimedEdgeB AppState.preview AppState.error = false := by decide

/-- C4 as amended: along enabled events the presentation state either stays
put or moves along one of the edges `idle → loading`, `loading → preview`,
`loading → error`, `idle → error`, `error → idle`, plus the three edges the
code also takes: `idle → preview` (loading a saved project), `preview →
error` (save failure), and `preview → idle` (restart from the preview
view). -/
theorem c4_amended_transitions (s : AppModel) (e : Event)
    (h : enabledB s.appState e = true) :
    (step s e).appState = s.appState ∨
    amendedEdgeB s.appState ((step s e).appState) = true := by
  cases hs : s.appState <;> cases e <;> rw [hs] at h <;>
    try exact Bool.noConfusion h
  case idle.genStart topic =>
      right
      rfl
  case idle.load p dec =>
      right
      rcases handleLoadProject_appState s p dec with h1 | h1 <;>
        rw [show step s (Event.load p dec) = handleLoadProject s p dec from rfl, h1] <;>
        rfl
  case idle.deleteProj id delRes =>
      rcases handleDeleteProject_appState s id delRes with h1 | h1
      · left
        rw [show step s (Event.deleteProj id delRes) = handleDeleteProject s id delRes from rfl, h1]
        exact hs
      · right
        rw [show step s (Event.deleteProj id delRes) = handleDeleteProject s id delRes from rfl, h1]
        rfl
  case idle.importProj input now rand putRes =>
      rcases handleImportProject_appState s input now rand putRes with h1 | h1
      · left
        rw [show step s (Event.importProj input now rand putRes) = handleImportProject s input now rand putRes from rfl, h1]
        exact hs
      · right
        rw [show step s (Event.importProj input now rand putRes) = handleImportProject s input now rand putRes from rfl, h1]
        rfl
  case idle.exportProj ok =>
      rcases handleExportProject_appState s ok with h1 | h1
      · left
        rw [show step s (Event.exportProj ok) = handleExportProject s ok from rfl, h1]
        exact hs
      · right
        rw [show step s (Event.exportProj ok) = handleExportProject s ok from rfl, h1]
        rfl
  case idle.initLoad dbOk listOk =>
      rcases handleInitLoad_appState s dbOk listOk with h1 | h1
      · left
        rw [show step s (Event.initLoad dbOk listOk) = handleInitLoad s dbOk listOk from rfl, h1]
        exact hs
      · right
        rw [show step s (Event.initLoad dbOk listOk) = handleInitLoad s dbOk listOk from rfl, h1]
        rfl
  case loading.genFinish o =>
      right
      rcases handleGenerateVideoRest_appState s o with h1 | h1 <;>
        rw [show step s (Event.genFinish o) = handleGenerateVideoRest s o from rfl, h1] <;>
        rfl
  case preview.restart =>
      right
      rfl
  case preview.save now rand enc putRes =>
      rcases handleSaveProject_appState s now rand enc putRes with h1 | h1
      · left
        rw [show step s (Event.save now rand enc putRes) = handleSaveProject s now rand enc putRes from rfl, h1]
        exact hs
      · right
        rw [show step s (Event.save now rand enc putRes) = handleSaveProject s now rand enc putRes from rfl, h1]
        rfl
  case error.restart =>
      right
      rfl

theorem c4_amended_transitions_witness :
    (step sIdle (Event.genStart "robot")).appState = sIdle.appState ∨
    amendedEdgeB sIdle.appState ((step sIdle (Event.genStart "robot")).appState) = true :=
  c4_amended_transitions sIdle (Event.genStart "robot") rfl

/-- When some stage of a generation run fails with a non-empty message, the
run ends in the error state with that message verbatim. -/
theorem handleGenerateVideoRest_error (s : AppModel) (o : GenOracles) (msg : String)
    (hmsg : msg ≠ "")
    (hfail : firstStageError s.currentTopic o = some msg) :
    (handleGenerateVideoRest s o).appState = AppState.error ∧
    (handleGenerateVideoRest s o).errorMessage = msg := by
  unfold firstStageError at hfail
  simp only [handleGenerateVideoRest]
  cases h1 : o.script s.currentTopic with
  | error e =>
      rw [h1] at hfail
      simp only [Option.some.injEq] at hfail
      subst hfail
      exact ⟨rfl, by simp [genFailState, hmsg]⟩
  | ok script =>
      rw [h1] at hfail
      simp only [] at hfail
      simp only []
      cases h2 : o.titleAndHashtags s.currentTopic script with
      | error e =>
          rw [h2] at hfail
          simp only [Option.some.injEq] at hfail
          subst hfail
          exact ⟨rfl, by simp [genFailState, hmsg]⟩
      | ok th =>
          rw [h2] at hfail
          simp only [] at hfail
          simp only []
          cases h3 : o.sceneAnalysis script with
          | error e =>
              rw [h3] at hfail
              simp only [Option.some.injEq] at hfail
              subst hfail
              exact ⟨rfl, by simp [genFailState, hmsg]⟩
          | ok sceneData =>
              rw [h3] at hfail
              simp only [] at hfail
              simp only []
              cases h4 : allImages o.imageForScene sceneData with
              | error e =>
                  rw [h4] at hfail
                  simp only [Option.some.injEq] at hfail
                  subst hfail
                  exact ⟨rfl, by simp [genFailState, hmsg]⟩
              | ok urls =>
                  rw [h4] at hfail
                  simp only [] at hfail
                  simp only []
                  cases h5 : o.voiceover (cleanedScriptForVoiceover script) with
                  | error e =>
                      rw [h5] at hfail
                      simp only [Option.some.injEq] at hfail
                      subst hfail
                      exact ⟨rfl, by simp [genFailState, hmsg]⟩
                  | ok audioData =>
                      rw [h5] at hfail
                      simp only [] at hfail
                      simp only []
                      cases h6 : o.processAudio audioData with
                      | error e =>
                          rw [h6] at hfail
                          simp only [Option.some.injEq] at hfail
                          subst hfail
                          exact ⟨rfl, by simp [genFailState, hmsg]⟩
                      | ok url =>
                          rw [h6] at hfail
                          simp only [] at hfail
                          simp only []
                          exact Option.noConfusion hfail

/-- When the scene-analysis stage is the one that fails, the run leaves the
scenes and the audio reference exactly as they were. -/
theorem handleGenerateVideoRest_early_frame (s : AppModel) (o : GenOracles)
    (script : String) (th : String × String) (e : String)
    (hscript : o.script s.currentTopic = Except.ok script)
    (hth : o.titleAndHashtags s.currentTopic script = Except.ok th)
    (hscene : o.sceneAnalysis script = Except.error e) :
    (handleGenerateVideoRest s o).scenes = s.scenes ∧
    (handleGenerateVideoRest s o).audioUrl = s.audioUrl := by
  simp only [handleGenerateVideoRest]
  rw [hscript]
  simp only []
  rw [hth]
  simp only []
  rw [hscene]
  exact ⟨rfl, rfl⟩

/-- C7: whenever some stage of a generation run throws with a non-empty
message (and all earlier stages succeeded), the workflow aborts in the
`error` state and surfaces exactly that message; and when the failing stage
is the scene analysis, the run sets no scenes and no audio reference — both
are left exactly as they were before the run. -/
theorem c7_stage_failure_aborts_with_verbatim_message (s : AppModel)
    (topic msg : String) (o : GenOracles)
    (hmsg : msg ≠ "") (hfail : firstStageError topic o = some msg) :
    (handleGenerateVideo s topic o).appState = AppState.error ∧
    (handleGenerateVideo s topic o).errorMessage = msg ∧
    (∀ script th e, o.script topic = Except.ok script →
      o.titleAndHashtags topic script = Except.ok th →
      o.sceneAnalysis script = Except.error e →
      (handleGenerateVideo s topic o).scenes = s.scenes ∧
      (handleGenerateVideo s topic o).audioUrl = s.audioUrl) := by
  have h1 := handleGenerateVideoRest_error (handleGenerateVideoStart s topic) o msg
    hmsg hfail
  refine ⟨h1.1, h1.2, ?_⟩
  intro script th e hscript hth hscene
  exact handleGenerateVideoRest_early_frame (handleGenerateVideoStart s topic) o
    script th e hscript hth hscene

/-- Oracles realizing the spec's failure scenario: the scene-analysis stage
throws `"rate limited"`, every earlier stage succeeds. -/
def oRateLimited : GenOracles :=
  { script := fun _ => Except.ok "வணக்கம்",
    titleAndHashtags := fun _ _ => Except.ok ("Robot Cooks", "#robot"),
    sceneAnalysis := fun _ => Except.error "rate limited",
    imageForScene := fun _ => Except.ok "img://x",
    voiceover := fun _ => Except.ok "QUJD",
    processAudio := fun _ => Except.ok "blob:v" }

theorem c7_stage_failure_aborts_with_verbatim_message_witness :
    (handleGenerateVideo sIdle "A robot learns to cook" oRateLimited).appState
        = AppState.error ∧
    (handleGenerateVideo sIdle "A robot learns to cook" oRateLimited).errorMessage
        = "rate limited" ∧
    (handleGenerateVideo sIdle "A robot learns to cook" oRateLimited).scenes
        = sIdle.scenes ∧
    (handleGenerateVideo sIdle "A robot learns to cook" oRateLimited).audioUrl
        = sIdle.audioUrl := by
  have h := c7_stage_failure_aborts_with_verbatim_message sIdle
    "A robot learns to cook" "rate limited" oRateLimited (by decide) rfl
  obtain ⟨ha, hb, hc⟩ := h
  obtain ⟨hsc, hau⟩ := hc "வணக்கம்" ("Robot Cooks", "#robot") "rate limited" rfl rfl rfl
  exact ⟨ha, hb, hsc, hau⟩
